import Mathlib

/-!
Verification of the image-hosting worker (`src/index.js`) against its
natural-language specification.

The embedding below translates the decision logic of the worker into pure Lean
functions.  External collaborators (R2 blob store, D1 metadata store, the
Workers-AI inference service, the KV stores and the edge response cache)
are modelled by explicit state and by per-request environment records that
carry the outcome of each collaborator (success value or failure), exactly the
data the JavaScript handlers branch on.  The side effects a handler
performs are recorded in an ordered event trace, so temporal claims
("X happens before Y", "Z is never invoked") become statements about
traces.
-/

namespace ImageWorker

/-! ## Constants (`src/index.js` lines 28-39) -/

def MAX_IMAGE_BYTES : Nat := 10 * 1024 * 1024

def RATE_LIMIT_MAX : Nat := 10

def AI_DEDUPE_TTL : Nat := 300

def CACHE_MAX_AGE : Nat := 3600

def CACHE_PENDING_AGE : Nat := 60

def ALT_TEXT_MAX_LEN : Nat := 500

def ALLOWED_TYPES : List String :=
  ["image/jpeg", "image/png", "image/gif", "image/webp", "image/avif"]

/-! ## Sanitizer (`sanitiseAltText`, lines 62-70)

the pipeline: coerce to string, trim, remove tag spans matching
`<[^>]*>`, escape the six special characters through `HTML_ESCAPE_MAP`,
then slice to `ALT_TEXT_MAX_LEN`.
-/

/-- The apostrophe character (U+0027). -/
def squote : Char := Char.ofNat 39

/-- The backtick character (U+0060). -/
def btick : Char := Char.ofNat 96

/-- The set of characters removed by `String.prototype.trim` in JavaScript:
WhiteSpace and LineTerminator code points. -/
def jsWsChars : List Char :=
  [Char.ofNat 9, Char.ofNat 10, Char.ofNat 11, Char.ofNat 12, Char.ofNat 13,
   Char.ofNat 32, Char.ofNat 0xa0, Char.ofNat 0x1680,
   Char.ofNat 0x2000, Char.ofNat 0x2001, Char.ofNat 0x2002, Char.ofNat 0x2003,
   Char.ofNat 0x2004, Char.ofNat 0x2005, Char.ofNat 0x2006, Char.ofNat 0x2007,
   Char.ofNat 0x2008, Char.ofNat 0x2009, Char.ofNat 0x200a,
   Char.ofNat 0x2028, Char.ofNat 0x2029, Char.ofNat 0x202f, Char.ofNat 0x205f,
   Char.ofNat 0x3000, Char.ofNat 0xfeff]

def isJsWs (c : Char) : Bool := jsWsChars.contains c

/-- Model of `String.prototype.trim`: drop leading and trailing whitespace. -/
def trimL (l : List Char) : List Char :=
  (((l.dropWhile isJsWs).reverse.dropWhile isJsWs)).reverse

/-- Skip forward past the first `>` character; `none` when there is none.
Used to model one match of the regex `<[^>]*>` starting at a `<`. -/
def afterGt : List Char → Option (List Char)
  | [] => none
  | c :: rest => if c = '>' then some rest else afterGt rest

/-- Model of the global tag-removal replacement on `<[^>]*>`: scanning
left to right, at each `<` that is followed (eventually) by a `>`, delete
the whole span through that first `>`; characters not part of such a span are kept.  Fueled so the recursion
is structural; `removeTags` supplies fuel equal to the list length, which
is always sufficient. -/
def removeTagsAux : Nat → List Char → List Char
  | 0, l => l
  | _ + 1, [] => []
  | fuel + 1, c :: rest =>
    if c = '<' then
      match afterGt rest with
      | some rest' => removeTagsAux fuel rest'
      | none => c :: removeTagsAux fuel rest
    else c :: removeTagsAux fuel rest

def removeTags (l : List Char) : List Char := removeTagsAux l.length l

/-- Per-character action of the escaping replacement (line 68): each of
the six special characters is mapped to its `HTML_ESCAPE_MAP` entity. -/
def escChar (c : Char) : List Char :=
  if c = '&' then "&amp;".data
  else if c = '<' then "&lt;".data
  else if c = '>' then "&gt;".data
  else if c = '"' then "&quot;".data
  else if c = squote then "&#39;".data
  else if c = btick then "&#96;".data
  else [c]

def escapeHtml (l : List Char) : List Char := (l.map escChar).flatten

/-- Body of `sanitiseAltText` on the character-list representation. -/
def sanitiseList (l : List Char) : List Char :=
  (escapeHtml (removeTags (trimL l))).take ALT_TEXT_MAX_LEN

/-- The function `sanitiseAltText(raw)` (lines 64-70). -/
def sanitiseAltText (s : String) : String := String.mk (sanitiseList s.data)

/-- Model of `String.prototype.trim` on strings (used at line 1292 before
the sanitizer is applied). -/
def jsTrim (s : String) : String := String.mk (trimL s.data)

/-! ## Data model

The D1 `images` table (schema.sql) keyed by `id`, with the nullable
`alt_text` column; the R2 bucket keyed by `id`; the edge response cache
keyed by the request identity (one entry per image URL, so keyed here by
image id); and the `AI_QUOTA` KV dedupe-lock keys `ai:<imageId>`. -/

structure Blob where
  bytes : List Nat
  contentType : Option String
deriving DecidableEq, Repr

/-- Response shape relevant to the claims: status, body bytes and the
headers built at lines 1210-1222. -/
structure Resp where
  status : Nat
  body : List Nat
  contentType : String
  altHeader : String
  cacheControl : String
  idHeader : String
deriving DecidableEq, Repr

structure SysState where
  /-- Rows of `images`: id ↦ nullable `alt_text`. -/
  db : List (String × Option String)
  /-- R2 objects: id ↦ blob. -/
  blobs : List (String × Blob)
  /-- Edge cache: image id ↦ stored response. -/
  cache : List (String × Resp)
  /-- Lock keys of `AI_QUOTA` currently present (un-expired). -/
  lock : List String
deriving DecidableEq, Repr

def lookup (m : List (String × α)) (k : String) : Option α :=
  (m.find? (fun p => p.1 = k)).map Prod.snd

def setKey (m : List (String × α)) (k : String) (v : α) : List (String × α) :=
  if (m.find? (fun p => p.1 = k)).isSome
  then m.map (fun p => if p.1 = k then (k, v) else p)
  else (k, v) :: m

/-- The statement `INSERT ... ON CONFLICT(id) DO UPDATE SET alt_text = ...`
(lines 1299-1308). -/
def upsertAltText (db : List (String × Option String)) (id t : String) :
    List (String × Option String) :=
  setKey db id (some t)

/-- Per-request outcomes of the external collaborators, i.e. which of the
awaited operations succeed or fail on this particular request. -/
structure Faults where
  /-- The D1 `SELECT alt_text` at line 1190 rejects. -/
  d1ReadFails : Bool
  /-- The R2 `get` at line 1191 rejects. -/
  r2Fails : Bool
  /-- Whether the `AI_QUOTA` binding is configured (line 1265). -/
  quotaConfigured : Bool
  /-- The KV get/put at lines 1268-1270 throws. -/
  lockErr : Bool
  /-- Outcome of `env.AI.run` (line 1277): the response text, or failure. -/
  aiResult : Except Unit String
  /-- The D1 upsert at lines 1299-1308 throws. -/
  dbWriteFails : Bool
  /-- The post-AI `SELECT alt_text` at lines 1240-1243 rejects. -/
  rereadFails : Bool
deriving Repr

/-- Observable side effects, in program order. -/
inductive Event where
  | lockRead
  | lockWrite
  | inferenceCall
  | dbWrite (text : String)
  | dbRead
  | cachePut (r : Resp)
deriving DecidableEq, Repr

/-! ## Background enrichment (`generateAltTextOnce`, lines 1264-1313) -/

/-- Lock phase (lines 1265-1274): read the dedupe key `ai:<imageId>`;
abort (third component `true`) if present; otherwise write it; KV errors
are caught and treated as unlocked. -/
def lockPhase (imageId : String) (st : SysState) (f : Faults) :
    List Event × SysState × Bool :=
  if f.quotaConfigured then
    if f.lockErr then ([.lockRead], st, false)
    else if st.lock.contains ("ai:" ++ imageId) then ([.lockRead], st, true)
    else ([.lockRead, .lockWrite],
          { st with lock := ("ai:" ++ imageId) :: st.lock }, false)
  else ([], st, false)

/-- Inference phase (lines 1276-1312): call the model; on failure or an
empty sanitised result, stop with no mutation; otherwise upsert the
sanitised text (a throwing upsert is caught and leaves the store
unchanged). -/
def aiPhase (imageId : String) (st : SysState) (f : Faults) :
    List Event × SysState :=
  match f.aiResult with
  | .error _ => ([.inferenceCall], st)
  | .ok raw =>
    -- line 1292: the raw model response is trimmed, then sanitised
    let altText := sanitiseAltText (jsTrim raw)
    if altText = "" then ([.inferenceCall], st)
    else if f.dbWriteFails then ([.inferenceCall, .dbWrite altText], st)
    else ([.inferenceCall, .dbWrite altText],
          { st with db := upsertAltText st.db imageId altText })

def generateAltTextOnce (imageId : String) (st : SysState) (f : Faults) :
    List Event × SysState :=
  let l := lockPhase imageId st f
  if l.2.2 then (l.1, l.2.1)
  else
    let a := aiPhase imageId l.2.1 f
    (l.1 ++ a.1, a.2)

/-! ## Background cache rebuild (`generateAndCache`, lines 1236-1261) -/

def ccLong : String := "public, max-age=" ++ toString CACHE_MAX_AGE

def ccPending : String :=
  "public, max-age=" ++ toString CACHE_PENDING_AGE ++
    ", stale-while-revalidate=300"

def pendingAlt : String := "Pending — description being generated"

def generateAndCache (imageId : String) (origResp : Resp) (st : SysState)
    (f : Faults) : List Event × SysState :=
  let g := generateAltTextOnce imageId st f
  let ev := g.1
  let st1 := g.2
  -- lines 1239-1260: re-read alt_text; on a present value rebuild the
  -- cache entry with the enriched headers, otherwise (absent, empty or
  -- read failure) write the original pending response unchanged.
  if f.rereadFails then
    (ev ++ [.dbRead, .cachePut origResp],
     { st1 with cache := setKey st1.cache imageId origResp })
  else
    match lookup st1.db imageId with
    | some (some t) =>
      if t ≠ "" then
        let enriched : Resp :=
          { origResp with altHeader := t, cacheControl := ccLong }
        (ev ++ [.dbRead, .cachePut enriched],
         { st1 with cache := setKey st1.cache imageId enriched })
      else
        (ev ++ [.dbRead, .cachePut origResp],
         { st1 with cache := setKey st1.cache imageId origResp })
    | _ =>
      (ev ++ [.dbRead, .cachePut origResp],
       { st1 with cache := setKey st1.cache imageId origResp })

/-! ## Image serve (`handleImage`, lines 1178-1233) -/

inductive ServeResult where
  | cachedHit (r : Resp)
  | fresh (r : Resp)
  | err (status : Nat)
deriving DecidableEq, Repr

def ServeResult.isSuccess : ServeResult → Bool
  | .cachedHit _ => true
  | .fresh _ => true
  | .err _ => false

def handleImage (imageId : String) (st : SysState) (f : Faults) :
    ServeResult × List Event × SysState :=
  match lookup st.cache imageId with
  | some r => (.cachedHit r, [], st)                       -- lines 1186-1187
  | none =>
    if f.r2Fails then (.err 503, [], st)                   -- lines 1194-1197
    else
      match lookup st.blobs imageId with
      | none => (.err 404, [], st)                         -- line 1200
      | some obj =>
        -- line 1206: empty when the D1 read rejected, the row is missing
        -- or alt_text is null.
        let altText :=
          if f.d1ReadFails then ""
          else match lookup st.db imageId with
               | some (some t) => t
               | _ => ""
        let resp : Resp :=
          { status := 200
            body := obj.bytes
            contentType := obj.contentType.getD "application/octet-stream"
            altHeader := if altText = "" then pendingAlt else altText
            cacheControl := if altText = "" then ccPending else ccLong
            idHeader := imageId }
        if altText = "" then
          -- line 1227-1229: detached generateAndCache
          let g := generateAndCache imageId resp st f
          (.fresh resp, g.1, g.2)
        else
          -- line 1225: detached cache.put of the response as-is
          (.fresh resp, [.cachePut resp],
           { st with cache := setKey st.cache imageId resp })

/-! ## Upload / ingest (`handleUpload`, lines 1372-1479) -/

/-- Model of `String.prototype.startsWith`, computed structurally on the
character lists so that concrete instances reduce in the kernel. -/
def strStartsWith (s p : String) : Bool := p.data.isPrefixOf s.data

/-- Model of `String.prototype.toLowerCase` for hostname strings. -/
def strToLower (s : String) : String := String.mk (s.data.map Char.toLower)

/-- The URL shape check `/^https?:\/\/.+/` (line 1388): `http://` or
`https://` followed by at least one character that `.` matches (any
character except a line terminator). -/
def isRegexDot (c : Char) : Bool :=
  !(c = Char.ofNat 10 || c = Char.ofNat 13 ||
    c = Char.ofNat 0x2028 || c = Char.ofNat 0x2029)

def validScheme (s : String) : Bool :=
  (strStartsWith s "http://" &&
    match (s.data.drop 7).head? with
    | some c => isRegexDot c
    | none => false) ||
  (strStartsWith s "https://" &&
    match (s.data.drop 8).head? with
    | some c => isRegexDot c
    | none => false)

/-- The hostname denylist of `isSafeUrl` (lines 1485-1497), applied to the
literal hostname string; all five regexes carry the `i` flag. -/
def deniedHostname (h : String) : Bool :=
  let l := strToLower h
  strStartsWith l "localhost" || strStartsWith l "127." ||
  strStartsWith l "0.0.0.0" || strStartsWith l "::1" ||
  strStartsWith l "169.254." || strStartsWith l "10." ||
  ((List.range' 16 16).any fun n =>
    strStartsWith l ("172." ++ toString n ++ ".")) ||
  strStartsWith l "192.168."

/-- The check `isSafeUrl(urlStr)`: URL parsing is delegated to the
environment; a parse failure (`new URL` throwing) is `none` and yields
`false`. -/
def isSafeUrl (hostname : Option String) : Bool :=
  match hostname with
  | none => false
  | some h => !deniedHostname h

/-- Mime-type normalisation of lines 1432-1433: take the header up to the
first semicolon, trim it, lower-case it (a missing header is the empty
string). -/
def mimeOf (ct : String) : String :=
  String.mk (((trimL (ct.data.takeWhile (fun c => c ≠ ';'))).map Char.toLower))

structure FetchResp where
  /-- Value of `imgResponse.ok`. -/
  ok : Bool
  /-- Upstream content-type header; an absent header is the empty string. -/
  contentType : String
  /-- Value of `bytes.byteLength`. -/
  byteLen : Nat
deriving Repr

/-- Per-request environment for ingest: the validated inputs and each
collaborator's outcome, in the order `handleUpload` consults them. -/
structure UploadEnv where
  url : String
  /-- Hostname from `new URL(url)`, and `none` when parsing throws. -/
  hostname : Option String
  /-- D1 dedupe lookup by `source_url` (lines 1397-1400): existing id. -/
  dedupe : Except Unit (Option String)
  /-- The outbound `fetch` (lines 1417-1421): failure = network error or
  the 10 s abort. -/
  fetchResult : Except Unit FetchResp
  /-- The R2 `put` (lines 1452-1455) succeeds. -/
  blobPutOk : Bool
  /-- The D1 `INSERT` (lines 1461-1468) succeeds. -/
  insertOk : Bool
  /-- The compensating R2 `delete` (line 1471) succeeds. -/
  deleteOk : Bool
  /-- Fresh id from `crypto.randomUUID()` (line 1449). -/
  newId : String
deriving Repr

inductive UEvent where
  | dedupeRead
  | fetch
  | blobPut
  | dbInsert
  | blobDelete
deriving DecidableEq, Repr

inductive UploadOutcome where
  /-- Status 200 `Already uploaded`, existing id returned (lines 1402-1407). -/
  | existing (id : String)
  /-- Status 201 created (lines 1475-1478). -/
  | created (id : String)
  /-- Failure via `jsonError(..., status)`. -/
  | error (status : Nat)
deriving DecidableEq, Repr

def handleUpload (e : UploadEnv) : UploadOutcome × List UEvent :=
  if !validScheme e.url then (.error 400, [])              -- line 1388
  else if !isSafeUrl e.hostname then (.error 400, [])      -- line 1392
  else
    match e.dedupe with
    | .error _ => (.error 503, [.dedupeRead])              -- lines 1408-1411
    | .ok (some id) => (.existing id, [.dedupeRead])       -- lines 1402-1407
    | .ok none =>
      match e.fetchResult with
      | .error _ => (.error 502, [.dedupeRead, .fetch])    -- lines 1422-1423
      | .ok r =>
        if !r.ok then (.error 502, [.dedupeRead, .fetch])  -- lines 1428-1430
        else if !(ALLOWED_TYPES.contains (mimeOf r.contentType)) then
          (.error 415, [.dedupeRead, .fetch])              -- lines 1434-1439
        else if r.byteLen > MAX_IMAGE_BYTES then
          (.error 413, [.dedupeRead, .fetch])              -- lines 1442-1447
        else if !e.blobPutOk then
          (.error 503, [.dedupeRead, .fetch, .blobPut])    -- lines 1456-1459
        else if !e.insertOk then
          -- lines 1469-1472: compensating delete is attempted (its own
          -- outcome `e.deleteOk` is only logged) and 503 is returned.
          (.error 503, [.dedupeRead, .fetch, .blobPut, .dbInsert, .blobDelete])
        else
          (.created e.newId, [.dedupeRead, .fetch, .blobPut, .dbInsert])

/-! ## Rate limiting (`rateLimit`, lines 1128-1154) and routing -/

/-- The predicate `isApiPath` (line 1131). -/
def isApiPath (p : String) : Bool :=
  strStartsWith p "/images/" || p = "/upload" || p = "/audit"

structure RLEnv where
  /-- Whether the `env.RATE_LIMIT` binding exists (line 1134). -/
  configured : Bool
  /-- The KV get/put throws (lines 1140-1151). -/
  kvErr : Bool
  /-- Stored counter at key `rl:<ip>:<minute-window>` (0 when absent). -/
  count : Nat
deriving Repr

/-- The function `rateLimit(request, env)`: returns the 429 status when
the request is rejected, together with the counter after the call. -/
def rateLimit (path : String) (e : RLEnv) : Option Nat × Nat :=
  if !isApiPath path then (none, e.count)
  else if !e.configured then (none, e.count)
  else if e.kvErr then (none, e.count)
  else if e.count ≥ RATE_LIMIT_MAX then (some 429, e.count)
  else (none, e.count + 1)

/-- The gate of the router (lines 102-103): when `rateLimit` returns a
response, it is returned at once and no handler runs.  Result:
(handler runs?, rejection status). -/
def routerGate (path : String) (e : RLEnv) : Bool × Option Nat :=
  match (rateLimit path e).1 with
  | some s => (false, some s)
  | none => (true, none)

/-- Counter value at key `rl:<ip>:<win>` after `n` requests from one IP in
one minute window on an API path, starting from an absent key, with the
KV healthy, each request applying `rateLimit`. -/
def countAfter (path : String) : Nat → Nat
  | 0 => 0
  | n + 1 => (rateLimit path { configured := true, kvErr := false,
                               count := countAfter path n }).2

/-! ## Sanitizer lemmas -/

/-- The characters the escaping step of `sanitiseAltText` rewrites
(the six-character class of the escaping replacement). -/
def escapables : List Char := ['&', '<', '>', '"', squote, btick]

theorem dropWhile_idem (p : Char → Bool) (l : List Char) :
    (l.dropWhile p).dropWhile p = l.dropWhile p := by
  induction l with
  | nil => rfl
  | cons c t ih =>
    by_cases h : p c
    · rw [List.dropWhile_cons_of_pos h]; exact ih
    · rw [List.dropWhile_cons_of_neg h, List.dropWhile_cons_of_neg h]

theorem head?_dropWhile_false (p : Char → Bool) (l : List Char) :
    ∀ c, (l.dropWhile p).head? = some c → p c = false := by
  induction l with
  | nil => intro c h; simp at h
  | cons a t ih =>
    intro c h
    by_cases ha : p a
    · rw [List.dropWhile_cons_of_pos ha] at h; exact ih c h
    · rw [List.dropWhile_cons_of_neg ha] at h
      simp only [List.head?_cons, Option.some.injEq] at h
      rw [← h]; exact Bool.eq_false_iff.mpr ha

theorem dropWhile_eq_self_of_head (p : Char → Bool) (l : List Char)
    (h : ∀ c, l.head? = some c → p c = false) : l.dropWhile p = l := by
  cases l with
  | nil => rfl
  | cons c t =>
    exact List.dropWhile_cons_of_neg (by simp [h c rfl])

/-- Trailing-trim: drop trailing whitespace. -/
def dropTrail (l : List Char) : List Char :=
  (l.reverse.dropWhile isJsWs).reverse

theorem trimL_eq (l : List Char) :
    trimL l = dropTrail (l.dropWhile isJsWs) := rfl

theorem dropTrail_prefix_self (l : List Char) : dropTrail l <+: l := by
  have h : l.reverse.dropWhile isJsWs <:+ l.reverse :=
    List.dropWhile_suffix _
  rw [← List.reverse_reverse (l.reverse.dropWhile isJsWs)] at h
  exact List.reverse_suffix.mp h

theorem dropTrail_idem (l : List Char) :
    dropTrail (dropTrail l) = dropTrail l := by
  unfold dropTrail
  rw [List.reverse_reverse, dropWhile_idem]

theorem prefix_head? {l₁ l₂ : List Char} (h : l₁ <+: l₂) {c : Char}
    (hc : l₁.head? = some c) : l₂.head? = some c := by
  obtain ⟨t, rfl⟩ := h
  cases l₁ with
  | nil => simp at hc
  | cons a r => simpa using hc

theorem trimL_idem (l : List Char) : trimL (trimL l) = trimL l := by
  rw [trimL_eq, trimL_eq]
  have hhead : ∀ c, (dropTrail (l.dropWhile isJsWs)).head? = some c →
      isJsWs c = false := by
    intro c hc
    exact head?_dropWhile_false isJsWs l c
      (prefix_head? (dropTrail_prefix_self _) hc)
  rw [dropWhile_eq_self_of_head _ _ hhead, dropTrail_idem]

theorem trimL_subset (l : List Char) : trimL l ⊆ l := by
  rw [trimL_eq]
  exact fun c hc =>
    (List.dropWhile_suffix isJsWs).subset ((dropTrail_prefix_self _).subset hc)

theorem removeTagsAux_of_no_lt (fuel : Nat) (l : List Char)
    (h : '<' ∉ l) : removeTagsAux fuel l = l := by
  induction fuel generalizing l with
  | zero => rfl
  | succ n ih =>
    cases l with
    | nil => rfl
    | cons c t =>
      have hc : ¬(c = '<') := fun e => h (by rw [e]; exact List.mem_cons_self _ _)
      have ht : '<' ∉ t := fun m => h (List.mem_cons_of_mem c m)
      simp only [removeTagsAux, if_neg hc, ih t ht]

theorem removeTags_of_no_lt {l : List Char} (h : '<' ∉ l) :
    removeTags l = l := removeTagsAux_of_no_lt _ _ h

theorem escChar_eq_self {c : Char} (h : c ∉ escapables) : escChar c = [c] := by
  simp only [escapables, List.mem_cons, List.not_mem_nil, or_false,
    not_or] at h
  obtain ⟨h1, h2, h3, h4, h5, h6⟩ := h
  simp only [escChar, if_neg h1, if_neg h2, if_neg h3, if_neg h4,
    if_neg h5, if_neg h6]

theorem escapeHtml_eq_self {l : List Char}
    (h : ∀ c ∈ l, c ∉ escapables) : escapeHtml l = l := by
  induction l with
  | nil => rfl
  | cons c t ih =>
    have : escapeHtml (c :: t) = escChar c ++ escapeHtml t := by
      simp [escapeHtml]
    rw [this, escChar_eq_self (h c (List.mem_cons_self c t)),
      ih (fun d hd => h d (List.mem_cons_of_mem c hd))]
    rfl

/-- Under no-escapable-characters and in-bounds length, the sanitizer is
exactly the trim step. -/
theorem sanitiseList_eq_trimL {l : List Char}
    (h1 : ∀ c ∈ l, c ∉ escapables)
    (h2 : (trimL l).length ≤ ALT_TEXT_MAX_LEN) :
    sanitiseList l = trimL l := by
  have hmem : ∀ c ∈ trimL l, c ∉ escapables :=
    fun c hc => h1 c (trimL_subset l hc)
  have hlt : '<' ∉ trimL l := fun m =>
    hmem '<' m (by simp [escapables])
  unfold sanitiseList
  rw [removeTags_of_no_lt hlt, escapeHtml_eq_self hmem,
    List.take_of_length_le h2]

/-! ## C3: sanitizer idempotence -/

/-- C3 (counterexample): the sanitizer is not idempotent.  On input `"&"`
the first pass escapes to `"&amp;"`, and a second pass re-escapes the
ampersand of its own output, yielding `"&amp;amp;"`. -/
theorem sanitise_not_idempotent :
    sanitiseAltText (sanitiseAltText "&") ≠ sanitiseAltText "&" ∧
    sanitiseAltText "&" = "&amp;" ∧
    sanitiseAltText (sanitiseAltText "&") = "&amp;amp;" := by
  refine ⟨?_, ?_, ?_⟩ <;> decide

/-- C3 (amended): the sanitizer is idempotent on inputs that contain no
escapable character (ampersand, angle brackets, double quote, apostrophe,
backtick) and whose trimmed
form is within the 500-character bound; in general a second application
re-escapes the entities produced by the first, so idempotence fails. -/
theorem sanitise_idem_of_plain (s : String)
    (h1 : ∀ c ∈ s.data, c ∉ escapables)
    (h2 : (trimL s.data).length ≤ ALT_TEXT_MAX_LEN) :
    sanitiseAltText (sanitiseAltText s) = sanitiseAltText s := by
  have e1 : sanitiseAltText s = String.mk (trimL s.data) := by
    unfold sanitiseAltText
    rw [sanitiseList_eq_trimL h1 h2]
  have h1' : ∀ c ∈ trimL s.data, c ∉ escapables :=
    fun c hc => h1 c (trimL_subset _ hc)
  have h2' : (trimL (trimL s.data)).length ≤ ALT_TEXT_MAX_LEN := by
    rw [trimL_idem]; exact h2
  rw [e1]
  unfold sanitiseAltText
  rw [sanitiseList_eq_trimL h1' h2', trimL_idem]

/-- Witness for the amended C3 theorem at a concrete input. -/
theorem sanitise_idem_of_plain_witness :
    (∀ c ∈ "hello world".data, c ∉ escapables) ∧
    (trimL "hello world".data).length ≤ ALT_TEXT_MAX_LEN ∧
    sanitiseAltText (sanitiseAltText "hello world") =
      sanitiseAltText "hello world" :=
  ⟨by decide, by decide,
    sanitise_idem_of_plain "hello world" (by decide) (by decide)⟩

/-! ## Background-trace lemmas -/

theorem lockPhase_events {imageId : String} {st : SysState} {f : Faults}
    {e : Event} (h : e ∈ (lockPhase imageId st f).1) :
    e = Event.lockRead ∨ e = Event.lockWrite := by
  unfold lockPhase at h
  split at h
  · split at h
    · simp at h; exact Or.inl h
    · split at h
      · simp at h; exact Or.inl h
      · simp at h; rcases h with h | h
        · exact Or.inl h
        · exact Or.inr h
  · simp at h

theorem aiPhase_events {imageId : String} {st : SysState} {f : Faults}
    {e : Event} (h : e ∈ (aiPhase imageId st f).1) :
    e = Event.inferenceCall ∨
    ∃ raw, f.aiResult = .ok raw ∧
      e = Event.dbWrite (sanitiseAltText (jsTrim raw)) ∧
      sanitiseAltText (jsTrim raw) ≠ "" := by
  simp only [aiPhase] at h
  split at h
  · simp at h; exact Or.inl h
  · next raw heq =>
    by_cases hz : sanitiseAltText (jsTrim raw) = ""
    · rw [if_pos hz] at h
      simp at h; exact Or.inl h
    · rw [if_neg hz] at h
      by_cases hw : f.dbWriteFails = true
      · rw [if_pos hw] at h
        simp at h
        rcases h with h | h
        · exact Or.inl h
        · exact Or.inr ⟨raw, heq, h, hz⟩
      · rw [if_neg hw] at h
        simp at h
        rcases h with h | h
        · exact Or.inl h
        · exact Or.inr ⟨raw, heq, h, hz⟩

theorem gen_no_cachePut (imageId : String) (st : SysState) (f : Faults)
    (r : Resp) : Event.cachePut r ∉ (generateAltTextOnce imageId st f).1 := by
  intro hmem
  simp only [generateAltTextOnce] at hmem
  split at hmem
  · rcases lockPhase_events hmem with h | h <;> simp at h
  · simp only [List.mem_append] at hmem
    rcases hmem with h | h
    · rcases lockPhase_events h with h | h <;> simp at h
    · rcases aiPhase_events h with h | ⟨raw, _, h, _⟩ <;> simp at h

theorem genAndCache_shape (imageId : String) (origResp : Resp)
    (st : SysState) (f : Faults) :
    ∃ r, (generateAndCache imageId origResp st f).1 =
      (generateAltTextOnce imageId st f).1 ++
        [Event.dbRead, Event.cachePut r] := by
  simp only [generateAndCache]
  split
  · exact ⟨_, rfl⟩
  · split
    · split
      · exact ⟨_, rfl⟩
      · exact ⟨_, rfl⟩
    · exact ⟨_, rfl⟩

/-! ## C1: when is the pending response written to the cache? -/

/-- C1 (counterexample): a fully successful cold read.  The image record
exists with `alt_text` null, the blob is present, the lock store is
healthy and unlocked, inference succeeds.  The background trace performs
the inference call first and the only Response-Cache write is the
*enriched* (long-TTL) entry, placed after the call: no short-TTL
"pending" entry is ever written to the cache, so a concurrent identical
request arriving before the task finishes misses the cache instead of
getting the claimed fast-path hit. -/
theorem no_pending_cache_during_enrichment :
    (handleImage "img-a"
        { db := [("img-a", none)],
          blobs := [("img-a", { bytes := [7], contentType := some "image/png" })],
          cache := [], lock := [] }
        { d1ReadFails := false, r2Fails := false, quotaConfigured := true,
          lockErr := false, aiResult := .ok "A cat.", dbWriteFails := false,
          rereadFails := false }).2.1 =
      [Event.lockRead, Event.lockWrite, Event.inferenceCall,
       Event.dbWrite "A cat.", Event.dbRead,
       Event.cachePut
         { status := 200, body := [7], contentType := "image/png",
           altHeader := "A cat.", cacheControl := ccLong,
           idHeader := "img-a" }] ∧
    "A cat." ≠ pendingAlt ∧ ccLong ≠ ccPending := by
  refine ⟨?_, ?_, ?_⟩ <;> decide

/-- C1 (amended): the Response Cache is written by the background task
only *after* the enrichment attempt completes: in every background trace,
every cache write occurs at a strictly later position than the inference
call.  (The short-TTL pending response reaches the cache only as the
fallback when no description was persisted; it is never populated
independently of the inference call.) -/
theorem cache_write_after_inference (imageId : String) (origResp : Resp)
    (st : SysState) (f : Faults) (i j : Nat) (r : Resp)
    (hi : (generateAndCache imageId origResp st f).1[i]? =
      some Event.inferenceCall)
    (hj : (generateAndCache imageId origResp st f).1[j]? =
      some (Event.cachePut r)) :
    i < j := by
  obtain ⟨r0, hsh⟩ := genAndCache_shape imageId origResp st f
  rw [hsh] at hi hj
  rw [List.getElem?_append] at hi hj
  by_cases hilt : i < (generateAltTextOnce imageId st f).1.length
  · by_cases hjlt : j < (generateAltTextOnce imageId st f).1.length
    · rw [if_pos hjlt] at hj
      exact absurd (List.getElem?_mem hj) (gen_no_cachePut imageId st f r)
    · omega
  · rw [if_neg hilt] at hi
    have : Event.inferenceCall ∈ [Event.dbRead, Event.cachePut r0] :=
      List.getElem?_mem hi
    simp at this

/-- Witness for the amended C1 theorem: on the concrete successful run
the inference call sits at index 2 and the (sole) cache write at index 5. -/
theorem cache_write_after_inference_witness : (2 : Nat) < 5 :=
  cache_write_after_inference "img-a"
    { status := 200, body := [7], contentType := "image/png",
      altHeader := pendingAlt, cacheControl := ccPending,
      idHeader := "img-a" }
    { db := [("img-a", none)],
      blobs := [("img-a", { bytes := [7], contentType := some "image/png" })],
      cache := [], lock := [] }
    { d1ReadFails := false, r2Fails := false, quotaConfigured := true,
      lockErr := false, aiResult := .ok "A cat.", dbWriteFails := false,
      rereadFails := false }
    2 5
    { status := 200, body := [7], contentType := "image/png",
      altHeader := "A cat.", cacheControl := ccLong, idHeader := "img-a" }
    (by decide) (by decide)

/-! ## C2: no inference once a description is persisted -/

/-- C2 (counterexample): a state whose record has a non-null description,
yet serve calls the Inference Service.  On a cache miss where the D1
`SELECT alt_text` rejects transiently (line 1202), `handleImage` treats
the description as absent and fires `generateAndCache`; and
`generateAltTextOnce` has no metadata gate of its own, so with the
dedupe lock absent the model is invoked again despite the persisted
description. -/
theorem described_state_reinvoked :
    lookup (SysState.db
      { db := [("img-b", some "A dog.")],
        blobs := [("img-b", { bytes := [9], contentType := some "image/png" })],
        cache := [], lock := [] }) "img-b" = some (some "A dog.") ∧
    Event.inferenceCall ∈
      (handleImage "img-b"
        { db := [("img-b", some "A dog.")],
          blobs := [("img-b", { bytes := [9], contentType := some "image/png" })],
          cache := [], lock := [] }
        { d1ReadFails := true, r2Fails := false, quotaConfigured := true,
          lockErr := false, aiResult := .ok "A dog.", dbWriteFails := false,
          rereadFails := false }).2.1 := by
  constructor <;> decide

/-- C2 (amended): once a non-empty description is persisted, a serve
whose metadata lookup succeeds never calls the Inference Service —
regardless of cache state, blob state, lock state or AI configuration.
(Only a transient metadata-read failure can re-trigger inference.) -/
theorem no_inference_when_described (imageId : String) (st : SysState)
    (f : Faults) (t : String)
    (hdb : lookup st.db imageId = some (some t)) (ht : t ≠ "")
    (hd1 : f.d1ReadFails = false) :
    Event.inferenceCall ∉ (handleImage imageId st f).2.1 := by
  intro hmem
  simp only [handleImage] at hmem
  split at hmem
  · simp at hmem
  · split at hmem
    · simp at hmem
    · split at hmem
      · simp at hmem
      · rw [hd1] at hmem
        simp only [Bool.false_eq_true, if_false, hdb] at hmem
        rw [if_neg ht] at hmem
        simp at hmem

/-- Witness for the amended C2 theorem at a concrete described state. -/
theorem no_inference_when_described_witness :
    lookup (SysState.db
      { db := [("img-c", some "A bird.")],
        blobs := [("img-c", { bytes := [3], contentType := some "image/png" })],
        cache := [], lock := [] }) "img-c" = some (some "A bird.") ∧
    Event.inferenceCall ∉
      (handleImage "img-c"
        { db := [("img-c", some "A bird.")],
          blobs := [("img-c", { bytes := [3], contentType := some "image/png" })],
          cache := [], lock := [] }
        { d1ReadFails := false, r2Fails := false, quotaConfigured := true,
          lockErr := false, aiResult := .ok "x", dbWriteFails := false,
          rereadFails := false }).2.1 :=
  ⟨by decide,
   no_inference_when_described "img-c" _ _ "A bird." (by decide) (by decide)
     (by decide)⟩

/-! ## C6: metadata lookup failure is non-fatal on the serve path -/

/-- C6: on a cache miss with the blob present, a failing metadata lookup
still yields the success response: status 200, the blob bytes, and the
pending placeholder description with the short freshness directive —
exactly the response built when the description is absent.  The store
failure never turns image delivery into an error. -/
theorem metadata_failure_nonfatal (imageId : String) (st : SysState)
    (f : Faults) (obj : Blob)
    (hc : lookup st.cache imageId = none)
    (hr2 : f.r2Fails = false)
    (hb : lookup st.blobs imageId = some obj)
    (hd1 : f.d1ReadFails = true) :
    (handleImage imageId st f).1 =
      ServeResult.fresh
        { status := 200, body := obj.bytes,
          contentType := obj.contentType.getD "application/octet-stream",
          altHeader := pendingAlt, cacheControl := ccPending,
          idHeader := imageId } ∧
    ((handleImage imageId st f).1).isSuccess = true := by
  have h : (handleImage imageId st f).1 =
      ServeResult.fresh
        { status := 200, body := obj.bytes,
          contentType := obj.contentType.getD "application/octet-stream",
          altHeader := pendingAlt, cacheControl := ccPending,
          idHeader := imageId } := by
    simp only [handleImage, hc, hr2, hb, hd1]
    simp
  exact ⟨h, by rw [h]; rfl⟩

/-- Witness for C6 at a concrete state with a failing metadata read. -/
theorem metadata_failure_nonfatal_witness :
    lookup (SysState.blobs
      { db := [], blobs := [("img-d", { bytes := [1, 2], contentType := none })],
        cache := [], lock := [] }) "img-d" =
      some { bytes := [1, 2], contentType := none } ∧
    (handleImage "img-d"
      { db := [], blobs := [("img-d", { bytes := [1, 2], contentType := none })],
        cache := [], lock := [] }
      { d1ReadFails := true, r2Fails := false, quotaConfigured := false,
        lockErr := false, aiResult := .error (), dbWriteFails := false,
        rereadFails := false }).1 =
      ServeResult.fresh
        { status := 200, body := [1, 2],
          contentType := "application/octet-stream",
          altHeader := pendingAlt, cacheControl := ccPending,
          idHeader := "img-d" } :=
  ⟨by decide,
   ((metadata_failure_nonfatal "img-d" _ _
      { bytes := [1, 2], contentType := none }
      (by decide) (by decide) (by decide) (by decide)).1)⟩

/-! ## C8: response headers carry the description and a state-dependent
freshness directive -/

/-- C8: every successful cache-miss read returns status 200 with the blob
bytes, the image id header, and: when a non-empty description is read
from the store, the description itself with the long-lived directive
`public, max-age=3600`; when the description is absent, null, empty or
the metadata read failed, the literal pending placeholder with the
short-lived revalidating directive
`public, max-age=60, stale-while-revalidate=300`. -/
theorem response_headers_by_state (imageId : String) (st : SysState)
    (f : Faults) (obj : Blob)
    (hc : lookup st.cache imageId = none)
    (hr2 : f.r2Fails = false)
    (hb : lookup st.blobs imageId = some obj) :
    ∃ r, (handleImage imageId st f).1 = ServeResult.fresh r ∧
      r.status = 200 ∧ r.body = obj.bytes ∧ r.idHeader = imageId ∧
      (∀ t, f.d1ReadFails = false → lookup st.db imageId = some (some t) →
        t ≠ "" → r.altHeader = t ∧ r.cacheControl = ccLong) ∧
      ((f.d1ReadFails = true ∨ lookup st.db imageId = none ∨
        lookup st.db imageId = some none ∨
        lookup st.db imageId = some (some "")) →
        r.altHeader = pendingAlt ∧ r.cacheControl = ccPending) := by
  by_cases hd : f.d1ReadFails = true
  · refine ⟨Resp.mk 200 obj.bytes
      (obj.contentType.getD "application/octet-stream") pendingAlt ccPending
      imageId, ?_, rfl, rfl, rfl, ?_, ?_⟩
    · simp only [handleImage, hc, hr2, hb, hd]
      simp
    · intro t hfalse
      rw [hd] at hfalse; exact absurd hfalse (by simp)
    · intro _; exact ⟨rfl, rfl⟩
  · have hd' : f.d1ReadFails = false := by
      cases hx : f.d1ReadFails
      · rfl
      · exact absurd hx hd
    rcases hdb : lookup st.db imageId with _ | maybe
    · refine ⟨Resp.mk 200 obj.bytes
        (obj.contentType.getD "application/octet-stream") pendingAlt ccPending
        imageId, ?_, rfl, rfl, rfl, ?_, ?_⟩
      · simp only [handleImage, hc, hr2, hb, hd', hdb]
        simp
      · intro t _ hsome
        exact absurd hsome (by simp)
      · intro _; exact ⟨rfl, rfl⟩
    · rcases maybe with _ | t0
      · refine ⟨Resp.mk 200 obj.bytes
          (obj.contentType.getD "application/octet-stream") pendingAlt
          ccPending imageId, ?_, rfl, rfl, rfl, ?_, ?_⟩
        · simp only [handleImage, hc, hr2, hb, hd', hdb]
          simp
        · intro t _ hsome
          exact absurd hsome (by simp)
        · intro _; exact ⟨rfl, rfl⟩
      · by_cases ht0 : t0 = ""
        · refine ⟨Resp.mk 200 obj.bytes
            (obj.contentType.getD "application/octet-stream") pendingAlt
            ccPending imageId, ?_, rfl, rfl, rfl, ?_, ?_⟩
          · simp only [handleImage, hc, hr2, hb, hd', hdb, ht0]
            simp
          · intro t _ hsome htne
            rw [ht0] at hsome
            simp only [Option.some.injEq] at hsome
            exact absurd hsome.symm htne
          · intro _; exact ⟨rfl, rfl⟩
        · refine ⟨Resp.mk 200 obj.bytes
            (obj.contentType.getD "application/octet-stream") t0 ccLong
            imageId, ?_, rfl, rfl, rfl, ?_, ?_⟩
          · simp only [handleImage, hc, hr2, hb, hd', hdb]
            simp [ht0]
          · intro t _ hsome _
            simp only [Option.some.injEq] at hsome
            exact ⟨by rw [hsome], rfl⟩
          · intro habs
            rcases habs with h | h | h | h
            · exact absurd h hd
            · exact absurd h (by simp)
            · exact absurd h (by simp)
            · simp only [Option.some.injEq] at h
              exact absurd h ht0

/-- Witness for C8 at a concrete described state. -/
theorem response_headers_by_state_witness :
    lookup (SysState.blobs
      { db := [("img-e", some "A tree.")],
        blobs := [("img-e", { bytes := [5], contentType := some "image/gif" })],
        cache := [], lock := [] }) "img-e" =
      some { bytes := [5], contentType := some "image/gif" } ∧
    ∃ r, (handleImage "img-e"
        { db := [("img-e", some "A tree.")],
          blobs := [("img-e", { bytes := [5], contentType := some "image/gif" })],
          cache := [], lock := [] }
        { d1ReadFails := false, r2Fails := false, quotaConfigured := false,
          lockErr := false, aiResult := .error (), dbWriteFails := false,
          rereadFails := false }).1 = ServeResult.fresh r ∧
      r.status = 200 ∧ r.body = [5] ∧ r.idHeader = "img-e" ∧
      (∀ t, (false : Bool) = false →
        lookup (SysState.db
          { db := [("img-e", some "A tree.")],
            blobs := [("img-e", { bytes := [5], contentType := some "image/gif" })],
            cache := [], lock := [] }) "img-e" = some (some t) →
        t ≠ "" → r.altHeader = t ∧ r.cacheControl = ccLong) ∧
      (((false : Bool) = true ∨
        lookup (SysState.db
          { db := [("img-e", some "A tree.")],
            blobs := [("img-e", { bytes := [5], contentType := some "image/gif" })],
            cache := [], lock := [] }) "img-e" = none ∨
        lookup (SysState.db
          { db := [("img-e", some "A tree.")],
            blobs := [("img-e", { bytes := [5], contentType := some "image/gif" })],
            cache := [], lock := [] }) "img-e" = some none ∨
        lookup (SysState.db
          { db := [("img-e", some "A tree.")],
            blobs := [("img-e", { bytes := [5], contentType := some "image/gif" })],
            cache := [], lock := [] }) "img-e" = some (some "")) →
        r.altHeader = pendingAlt ∧ r.cacheControl = ccPending) :=
  ⟨by decide,
   response_headers_by_state "img-e" _ _
     { bytes := [5], contentType := some "image/gif" }
     (by decide) (by decide) (by decide)⟩

/-! ## C4: ingest idempotency on source URL -/

/-- C4: (i) when the dedupe lookup finds an existing record for the
source URL, ingest returns the id of that record unchanged and its only side
effect is the dedupe read itself — no network fetch, no blob write, no
metadata insert; (ii) a successful fresh ingest performs exactly one
fetch, one blob write and one metadata insert, so ingesting the same URL
twice yields the same id and exactly one blob and one row. -/
theorem ingest_idempotent :
    (∀ (e : UploadEnv) (id0 : String), validScheme e.url = true →
       isSafeUrl e.hostname = true → e.dedupe = Except.ok (some id0) →
       handleUpload e = (UploadOutcome.existing id0, [UEvent.dedupeRead])) ∧
    (∀ (e : UploadEnv) (r : FetchResp), validScheme e.url = true →
       isSafeUrl e.hostname = true → e.dedupe = Except.ok none →
       e.fetchResult = Except.ok r → r.ok = true →
       mimeOf r.contentType ∈ ALLOWED_TYPES →
       r.byteLen ≤ MAX_IMAGE_BYTES → e.blobPutOk = true → e.insertOk = true →
       handleUpload e = (UploadOutcome.created e.newId,
         [UEvent.dedupeRead, UEvent.fetch, UEvent.blobPut, UEvent.dbInsert])) := by
  constructor
  · intro e id0 hv hs hd
    simp [handleUpload, hv, hs, hd]
  · intro e r hv hs hd hf hok hmime hsize hblob hins
    simp [handleUpload, hv, hs, hd, hf, hok, hmime, Nat.not_lt_of_le hsize,
      hblob, hins]

/-- Witness for C4 at concrete environments for both conjuncts. -/
theorem ingest_idempotent_witness :
    handleUpload
      { url := "https://example.com/a.jpg", hostname := some "example.com",
        dedupe := Except.ok (some "id-0"), fetchResult := Except.error (),
        blobPutOk := false, insertOk := false, deleteOk := false,
        newId := "id-9" } =
      (UploadOutcome.existing "id-0", [UEvent.dedupeRead]) ∧
    handleUpload
      { url := "https://example.com/a.jpg", hostname := some "example.com",
        dedupe := Except.ok none,
        fetchResult := Except.ok { ok := true, contentType := "image/jpeg",
                                   byteLen := 17 },
        blobPutOk := true, insertOk := true, deleteOk := false,
        newId := "id-9" } =
      (UploadOutcome.created "id-9",
       [UEvent.dedupeRead, UEvent.fetch, UEvent.blobPut, UEvent.dbInsert]) :=
  ⟨ingest_idempotent.1 _ "id-0" (by decide) (by decide) rfl,
   ingest_idempotent.2 _ { ok := true, contentType := "image/jpeg",
                           byteLen := 17 }
     (by decide) (by decide) rfl rfl rfl (by decide) (by decide) rfl rfl⟩

/-! ## C5: compensating blob delete on metadata-insert failure -/

/-- C5: when the metadata insert fails after a successful blob write, the
blob delete is attempted as compensation and the ingest reports failure
(503); the outcome of the compensation itself is ignored, so the result and
trace are identical whether the delete succeeds or fails. -/
theorem ingest_compensation (e : UploadEnv) (r : FetchResp)
    (hv : validScheme e.url = true) (hs : isSafeUrl e.hostname = true)
    (hd : e.dedupe = Except.ok none) (hf : e.fetchResult = Except.ok r)
    (hok : r.ok = true)
    (hmime : mimeOf r.contentType ∈ ALLOWED_TYPES)
    (hsize : r.byteLen ≤ MAX_IMAGE_BYTES) (hblob : e.blobPutOk = true)
    (hins : e.insertOk = false) :
    (handleUpload e).1 = UploadOutcome.error 503 ∧
    UEvent.blobDelete ∈ (handleUpload e).2 ∧
    handleUpload { e with deleteOk := true } =
      handleUpload { e with deleteOk := false } := by
  refine ⟨?_, ?_, ?_⟩
  · simp [handleUpload, hv, hs, hd, hf, hok, hmime, Nat.not_lt_of_le hsize,
      hblob, hins]
  · simp [handleUpload, hv, hs, hd, hf, hok, hmime, Nat.not_lt_of_le hsize,
      hblob, hins]
  · rcases e with ⟨url, hn, dd, fr, bp, ins, del, nid⟩
    rfl

/-- Witness for C5 at a concrete environment with a failing insert. -/
theorem ingest_compensation_witness :
    (handleUpload
      { url := "https://example.com/b.png", hostname := some "example.com",
        dedupe := Except.ok none,
        fetchResult := Except.ok { ok := true, contentType := "image/png",
                                   byteLen := 8 },
        blobPutOk := true, insertOk := false, deleteOk := false,
        newId := "id-5" }).1 = UploadOutcome.error 503 ∧
    UEvent.blobDelete ∈
      (handleUpload
        { url := "https://example.com/b.png", hostname := some "example.com",
          dedupe := Except.ok none,
          fetchResult := Except.ok { ok := true, contentType := "image/png",
                                     byteLen := 8 },
          blobPutOk := true, insertOk := false, deleteOk := false,
          newId := "id-5" }).2 :=
  ⟨(ingest_compensation _
      { ok := true, contentType := "image/png", byteLen := 8 }
      (by decide) (by decide) rfl rfl rfl (by decide)
      (by decide) rfl rfl).1,
   (ingest_compensation _
      { ok := true, contentType := "image/png", byteLen := 8 }
      (by decide) (by decide) rfl rfl rfl (by decide)
      (by decide) rfl rfl).2.1⟩

/-! ## C7: denylisted hostnames are rejected with no side effects -/

/-- C7: when the literal hostname of the source URL matches the
loopback/link-local/private denylist, ingest reports a validation
failure (status 400) and performs nothing at all: no dedupe read, no
remote fetch, no blob write, no metadata write. -/
theorem denylisted_host_rejected (e : UploadEnv) (h : String)
    (hh : e.hostname = some h) (hd : deniedHostname h = true) :
    (handleUpload e).1 = UploadOutcome.error 400 ∧
    (handleUpload e).2 = [] := by
  have hsafe : isSafeUrl e.hostname = false := by
    rw [hh]; simp [isSafeUrl, hd]
  by_cases hv : validScheme e.url = true
  · constructor <;> simp [handleUpload, hv, hsafe]
  · have hv' : validScheme e.url = false := by
      cases hx : validScheme e.url
      · rfl
      · exact absurd hx hv
    constructor <;> simp [handleUpload, hv']

/-- Witness for C7 at a loopback-range hostname. -/
theorem denylisted_host_rejected_witness :
    deniedHostname "127.0.0.1" = true ∧
    (handleUpload
      { url := "http://127.0.0.1/x.png", hostname := some "127.0.0.1",
        dedupe := Except.ok none, fetchResult := Except.error (),
        blobPutOk := true, insertOk := true, deleteOk := true,
        newId := "id-7" }).1 = UploadOutcome.error 400 ∧
    (handleUpload
      { url := "http://127.0.0.1/x.png", hostname := some "127.0.0.1",
        dedupe := Except.ok none, fetchResult := Except.error (),
        blobPutOk := true, insertOk := true, deleteOk := true,
        newId := "id-7" }).2 = [] :=
  ⟨by decide,
   (denylisted_host_rejected _ "127.0.0.1" rfl (by decide)).1,
   (denylisted_host_rejected _ "127.0.0.1" rfl (by decide)).2⟩

/-! ## C9: persisted descriptions are sanitizer output, ≤ 500 chars -/

/-- C9: (i) the sanitizer output never exceeds 500 characters, the
truncation being applied after escaping; (ii) every description the
background task writes to the image record is the sanitizer output on
the (trimmed) raw model response — hence ≤ 500 characters and non-empty. -/
theorem persisted_descriptions_sanitised :
    (∀ s : String, (sanitiseAltText s).length ≤ ALT_TEXT_MAX_LEN) ∧
    (∀ (imageId : String) (st : SysState) (f : Faults) (t : String),
       Event.dbWrite t ∈ (generateAltTextOnce imageId st f).1 →
       ∃ raw, f.aiResult = Except.ok raw ∧
         t = sanitiseAltText (jsTrim raw) ∧ t ≠ "" ∧
         t.length ≤ ALT_TEXT_MAX_LEN) := by
  have hlen : ∀ s : String, (sanitiseAltText s).length ≤ ALT_TEXT_MAX_LEN := by
    intro s
    have h : (sanitiseAltText s).length = (sanitiseList s.data).length := rfl
    rw [h, sanitiseList]
    exact le_trans (List.length_take_le _ _) (le_refl _)
  refine ⟨hlen, ?_⟩
  intro imageId st f t hmem
  have hai : ∃ raw, f.aiResult = Except.ok raw ∧
      t = sanitiseAltText (jsTrim raw) ∧ t ≠ "" := by
    simp only [generateAltTextOnce] at hmem
    split at hmem
    · rcases lockPhase_events hmem with h | h <;> simp at h
    · simp only [List.mem_append] at hmem
      rcases hmem with h | h
      · rcases lockPhase_events h with h | h <;> simp at h
      · rcases aiPhase_events h with h | ⟨raw, hr, h, hne⟩
        · simp at h
        · simp only [Event.dbWrite.injEq] at h
          exact ⟨raw, hr, h, by rw [h]; exact hne⟩
  obtain ⟨raw, hr, ht, hne⟩ := hai
  exact ⟨raw, hr, ht, hne, by rw [ht]; exact hlen _⟩

/-- Witness for the second part of C9 at a concrete background run. -/
theorem persisted_descriptions_sanitised_witness :
    Event.dbWrite "A fox." ∈
      (generateAltTextOnce "img-f"
        { db := [("img-f", none)], blobs := [], cache := [], lock := [] }
        { d1ReadFails := false, r2Fails := false, quotaConfigured := true,
          lockErr := false, aiResult := .ok " A fox. ", dbWriteFails := false,
          rereadFails := false }).1 ∧
    ∃ raw, Faults.aiResult
        { d1ReadFails := false, r2Fails := false, quotaConfigured := true,
          lockErr := false, aiResult := .ok " A fox. ", dbWriteFails := false,
          rereadFails := false } = Except.ok raw ∧
      "A fox." = sanitiseAltText (jsTrim raw) ∧ "A fox." ≠ "" ∧
      String.length "A fox." ≤ ALT_TEXT_MAX_LEN :=
  ⟨by decide,
   persisted_descriptions_sanitised.2 "img-f"
     { db := [("img-f", none)], blobs := [], cache := [], lock := [] }
     { d1ReadFails := false, r2Fails := false, quotaConfigured := true,
       lockErr := false, aiResult := .ok " A fox. ", dbWriteFails := false,
       rereadFails := false }
     "A fox." (by decide)⟩

/-! ## C10: per-IP per-minute rate limit of 10, fail-open -/

theorem countAfter_min (path : String) (hp : isApiPath path = true) :
    ∀ n, countAfter path n = min n RATE_LIMIT_MAX := by
  intro n
  induction n with
  | zero => simp [countAfter]
  | succ n ih =>
    rw [countAfter, ih]
    simp only [rateLimit, hp, Bool.not_true, Bool.false_eq_true, if_false,
      Bool.not_false, if_true]
    by_cases h : min n RATE_LIMIT_MAX ≥ RATE_LIMIT_MAX
    · rw [if_pos h]
      simp only [RATE_LIMIT_MAX] at h ⊢
      omega
    · rw [if_neg h]
      simp only [RATE_LIMIT_MAX] at h ⊢
      omega

/-- C10: requests to API paths pass through the per-IP per-minute-window
rate limiter: starting from an absent counter with the KV store healthy,
(i) each of the first 10 requests in the window is allowed; (ii) the 11th
and every later request is rejected with 429 before any handler runs;
(iii) when the `RATE_LIMIT` binding is unconfigured the request proceeds
unthrottled; (iv) when the KV store errors the request also proceeds
(fail-open). -/
theorem rate_limit_behaviour :
    (∀ (path : String) (n : Nat), isApiPath path = true →
       n < RATE_LIMIT_MAX →
       routerGate path { configured := true, kvErr := false,
                         count := countAfter path n } = (true, none)) ∧
    (∀ (path : String) (n : Nat), isApiPath path = true →
       RATE_LIMIT_MAX ≤ n →
       routerGate path { configured := true, kvErr := false,
                         count := countAfter path n } = (false, some 429)) ∧
    (∀ (path : String) (c : Nat) (k : Bool),
       routerGate path { configured := false, kvErr := k, count := c } =
         (true, none)) ∧
    (∀ (path : String) (c : Nat),
       routerGate path { configured := true, kvErr := true, count := c } =
         (true, none)) := by
  refine ⟨?_, ?_, ?_, ?_⟩
  · intro path n hp hn
    rw [routerGate]
    simp only [rateLimit, hp, countAfter_min path hp, Bool.not_true,
      Bool.false_eq_true, if_false, Bool.not_false, if_true]
    rw [if_neg (by simp only [RATE_LIMIT_MAX] at hn ⊢; omega)]
  · intro path n hp hn
    rw [routerGate]
    simp only [rateLimit, hp, countAfter_min path hp, Bool.not_true,
      Bool.false_eq_true, if_false, Bool.not_false, if_true]
    rw [if_pos (by simp only [RATE_LIMIT_MAX] at hn ⊢; omega)]
  · intro path c k
    rw [routerGate]
    by_cases hp : isApiPath path = true <;>
      simp [rateLimit, hp]
  · intro path c
    rw [routerGate]
    by_cases hp : isApiPath path = true <;>
      simp [rateLimit, hp]

/-- Witness for C10: on an image-read path, the 11th request of the
window (index 10) is rejected with 429 and the handler does not run,
while request index 9 still passes. -/
theorem rate_limit_behaviour_witness :
    isApiPath "/images/00000000-0000-4000-8000-000000000000" = true ∧
    routerGate "/images/00000000-0000-4000-8000-000000000000"
      { configured := true, kvErr := false,
        count := countAfter "/images/00000000-0000-4000-8000-000000000000" 10 } =
      (false, some 429) ∧
    routerGate "/images/00000000-0000-4000-8000-000000000000"
      { configured := true, kvErr := false,
        count := countAfter "/images/00000000-0000-4000-8000-000000000000" 9 } =
      (true, none) :=
  ⟨by decide,
   rate_limit_behaviour.2.1 "/images/00000000-0000-4000-8000-000000000000" 10
     (by decide) (by decide),
   rate_limit_behaviour.1 "/images/00000000-0000-4000-8000-000000000000" 9
     (by decide) (by decide)⟩

end ImageWorker

